import Mathlib

/-!
Shallow embedding of the playback-interception and change-watch coordination
core of the StreamGo preload script (src/src/preload.ts), together with
theorems settling the frozen claims about it.

The embedding models the single-threaded renderer logic as pure functions:
DOM side effects (body classes, video pause/mute), IPC launch dispatches and
observer callbacks are made explicit as state fields and logs; timers and
requestAnimationFrame callbacks become explicit events processed by step
functions.
-/

namespace StreamGo

/-! ### Change-Watch Coordinator (unified MutationObserver, preload.ts 38-117) -/

/-- A handler registration in the unified MutationObserver system
(preload.ts `ObserverHandler`): an id and an `active` flag.  The callback
itself is abstracted away; dispatch to it is recorded in a log. -/
structure ObserverHandler where
  id : String
  active : Bool
deriving DecidableEq, Repr

/-- Lifecycle state of the unified observer system: the keys of the
`observerHandlers` map in insertion order, and whether `unifiedObserver` is
currently non-null (created and observing `document.body`). -/
structure ObserverSystem where
  handlerIds : List String
  unifiedObserver : Bool
deriving DecidableEq, Repr

/-- `initUnifiedObserver` (preload.ts 48-76): returns immediately when the
observer already exists, otherwise creates it and starts observing. -/
def initUnifiedObserver (s : ObserverSystem) : ObserverSystem :=
  if s.unifiedObserver then s
  else { handlerIds := s.handlerIds, unifiedObserver := true }

/-- Key insertion with JS `Map.set` semantics on the key list: an existing
key keeps its position, a new key is appended. -/
def mapSetKey (ids : List String) (id : String) : List String :=
  if ids.contains id then ids else ids ++ [id]

/-- `registerObserverHandler` (preload.ts 78-82): lazily initializes the
observer, then stores the handler under its id. -/
def registerObserverHandler (s : ObserverSystem) (id : String) : ObserverSystem :=
  let s1 := initUnifiedObserver s
  { handlerIds := mapSetKey s1.handlerIds id, unifiedObserver := s1.unifiedObserver }

/-- `unregisterObserverHandler` (preload.ts 84-93): deletes the handler and,
when the map became empty and the observer exists, disconnects and discards
the observer. -/
def unregisterObserverHandler (s : ObserverSystem) (id : String) : ObserverSystem :=
  let ids := s.handlerIds.filter (fun k => k != id)
  if ids.isEmpty && s.unifiedObserver then { handlerIds := ids, unifiedObserver := false }
  else { handlerIds := ids, unifiedObserver := s.unifiedObserver }

/-- Frame-coalescing dispatch state of the unified observer: the pending
requestAnimationFrame callback (`observerRafId`), holding the mutation batch
its closure captured, and a log of handler invocations (handler id paired
with the batch it was invoked with).  A mutation batch is abstracted as a
list of record ids. -/
structure DispatchState where
  pendingBatch : Option (List Nat)
  dispatchLog : List (String × List Nat)
deriving DecidableEq, Repr

/-- The MutationObserver callback body (preload.ts 51-67): each delivered
batch cancels any pending frame callback (`cancelAnimationFrame`) and
schedules a new one capturing this batch. -/
def observerOnBatch (st : DispatchState) (batch : List Nat) : DispatchState :=
  { pendingBatch := some batch, dispatchLog := st.dispatchLog }

/-- A paint-frame boundary: the pending requestAnimationFrame callback, if
any, runs and invokes every currently active handler once with the batch it
captured, then clears `observerRafId`. -/
def observerOnFrame (handlers : List ObserverHandler) (st : DispatchState) : DispatchState :=
  match st.pendingBatch with
  | none => st
  | some b =>
    { pendingBatch := none
      dispatchLog := st.dispatchLog ++ (handlers.filter (fun h => h.active)).map (fun h => (h.id, b)) }

/-! ### Scroll Performance Monitor (`setupScrollStateDetection`, preload.ts 1814-1869) -/

/-- State closed over by `setupScrollStateDetection`: the armed debounce
timer and requestAnimationFrame ids, the `isScrolling` flag, the time of the
last scroll input, the two performance-marker classes, and counters of
`pauseAllObservers` / `resumeAllObservers` calls.  `nextTimerId` supplies
fresh timer/RAF ids. -/
structure ScrollState where
  scrollTimeout : Option Nat
  rafId : Option Nat
  isScrolling : Bool
  lastScrollTime : Nat
  scrollingActiveClass : Bool
  performanceModeClass : Bool
  pauseAllCalls : Nat
  resumeAllCalls : Nat
  nextTimerId : Nat
deriving DecidableEq, Repr

/-- Initial state installed by `setupScrollStateDetection`. -/
def scrollInit : ScrollState :=
  { scrollTimeout := none, rafId := none, isScrolling := false, lastScrollTime := 0
    scrollingActiveClass := false, performanceModeClass := false
    pauseAllCalls := 0, resumeAllCalls := 0, nextTimerId := 0 }

/-- The debounce window `SCROLL_DEBOUNCE` (50 ms). -/
def SCROLL_DEBOUNCE : Nat := 50

/-- Events delivered to the scroll monitor by the event loop: a scroll input
at time `t`, the firing of an armed `setTimeout`, or the firing of a
scheduled requestAnimationFrame callback at paint time `t`. -/
inductive ScrollEvent where
  | input (t : Nat)
  | timerFire (id : Nat) (t : Nat)
  | rafFire (id : Nat) (t : Nat)
deriving DecidableEq, Repr

/-- `handleScroll` (preload.ts 1826-1857): records the input time; on the
first input of a burst sets `isScrolling`, applies the two performance
marker classes and calls `pauseAllObservers`; then clears any previous
debounce timer and arms a fresh one. -/
def handleScroll (st : ScrollState) (t : Nat) : ScrollState :=
  let st1 := { st with lastScrollTime := t }
  let st2 :=
    if st1.isScrolling then st1
    else { st1 with isScrolling := true, scrollingActiveClass := true
                    performanceModeClass := true, pauseAllCalls := st1.pauseAllCalls + 1 }
  { st2 with scrollTimeout := some st2.nextTimerId, nextTimerId := st2.nextTimerId + 1 }

/-- Body of the debounce `setTimeout` (preload.ts 1845-1856): cancels any
pending requestAnimationFrame callback and schedules a new one. -/
def scrollTimeoutBody (st : ScrollState) : ScrollState :=
  { st with rafId := some st.nextTimerId, nextTimerId := st.nextTimerId + 1 }

/-- Body of the frame-aligned check (preload.ts 1847-1855): only if no
further input arrived within the debounce window does it clear
`isScrolling`, remove both marker classes and call `resumeAllObservers`. -/
def scrollRafBody (st : ScrollState) (t : Nat) : ScrollState :=
  if st.lastScrollTime + SCROLL_DEBOUNCE ≤ t then
    { st with isScrolling := false, scrollingActiveClass := false
              performanceModeClass := false, resumeAllCalls := st.resumeAllCalls + 1 }
  else st

/-- One event-loop step of the scroll monitor.  A timer or RAF callback only
runs when its id is still the armed one — a cleared (`clearTimeout` /
`cancelAnimationFrame`) callback never runs. -/
def scrollStep (st : ScrollState) : ScrollEvent → ScrollState
  | ScrollEvent.input t => handleScroll st t
  | ScrollEvent.timerFire id _ =>
    if st.scrollTimeout = some id then scrollTimeoutBody { st with scrollTimeout := none } else st
  | ScrollEvent.rafFire id t =>
    if st.rafId = some id then scrollRafBody { st with rafId := none } t else st

/-- Runs the scroll monitor over a list of event-loop events. -/
def runScroll (st : ScrollState) (evs : List ScrollEvent) : ScrollState :=
  evs.foldl scrollStep st

/-! ### Interception State Machine and Stream Locator
(`handleExternalPlayerInterception`, preload.ts 1527-1757) -/

/-- Modelled from the spec: the constants module (`src/constants`) imported
by preload.ts is not present under src/; the player enum of the spec names the
internal-player setting `builtin`, so `EXTERNAL_PLAYERS.BUILTIN` is modelled
as that string.  Every claim only compares it against the literals
`"vlc"`, `"mpchc"`, `"disabled"`, `"m3u"` and `""`. -/
def EXTERNAL_PLAYERS_BUILTIN : String := "builtin"

/-- JS truthiness of a nullable string: `null` and `""` are falsy. -/
def truthyStr : Option String → Option String
  | some s => if s = "" then none else some s
  | none => none

/-- JS truthiness of a nullable number: `null` and `0` are falsy. -/
def truthyNat : Option Nat → Option Nat
  | some n => if n = 0 then none else some n
  | none => none

/-- The fields of the host player-state snapshot that the interception
routine reads (`PlayerState` interface, preload.ts 1580-1616): the four
candidate stream-address fields in priority order, the content name, the
series info and the legacy top-level title. -/
structure PlayerStateSnapshot where
  streamContentUrl : Option String
  selectedDeepLink : Option String
  streamUrl : Option String
  streamExternalUrl : Option String
  metaName : Option String
  season : Option Nat
  episode : Option Nat
  titleField : Option String
deriving DecidableEq, Repr

/-- Character-list test that `pat` occurs at the head of `s`. -/
def matchesAt : List Char → List Char → Bool
  | [], _ => true
  | _ :: _, [] => false
  | p :: ps, c :: cs => p == c && matchesAt ps cs

/-- Character-list test that `pat` occurs somewhere in the haystack. -/
def charsInclude (pat : List Char) : List Char → Bool
  | [] => matchesAt pat []
  | c :: cs => matchesAt pat (c :: cs) || charsInclude pat cs

/-- JS `String.prototype.includes` (used as `location.href.includes`). -/
def strIncludes (hay pat : String) : Bool := charsInclude pat.toList hay.toList

/-- The URL-shape test the locator applies: `url.startsWith("http")` in the source
(preload.ts 1657, 1667). -/
def isHttpUrl (s : String) : Bool := matchesAt "http".toList s.toList

/-- The candidate player-state fields in the priority order of
`possibleUrls` (preload.ts 1646-1654). -/
def candidateUrls (p : PlayerStateSnapshot) : List (Option String) :=
  [p.streamContentUrl, p.selectedDeepLink, p.streamUrl, p.streamExternalUrl]

/-- First candidate that is a present, truthy string starting with `http`
(the `for (const url of possibleUrls)` loop, preload.ts 1656-1662). -/
def firstHttp : List (Option String) → Option String
  | [] => none
  | none :: rest => firstHttp rest
  | some s :: rest => if isHttpUrl s then some s else firstHttp rest

/-- One attempt of the retry loop (preload.ts 1639-1679): when the player
state is null nothing is probed; otherwise the candidate fields are checked
in order, then, as a last resort, the `src` of a rendered video element. -/
def attemptUrl (p : Option PlayerStateSnapshot) (videoSrc : Option String) : Option String :=
  match p with
  | none => none
  | some ps =>
    match firstHttp (candidateUrls ps) with
    | some u => some u
    | none =>
      match truthyStr videoSrc with
      | some v => if isHttpUrl v then some v else none
      | none => none

/-- The external environment the locator polls: the player-state snapshot
returned by the state accessor on attempt `i`, and the `src` of the rendered
video element on attempt `i`. -/
structure AttemptEnv where
  playerState : Nat → Option PlayerStateSnapshot
  videoSrc : Nat → Option String

/-- The bounded retry loop (`for (let attempt = 0; attempt < 20; ...)`,
preload.ts 1622-1686): the first attempt that finds a qualifying URL breaks
out of the loop; the snapshot of that attempt is the one later used to build
the display title. -/
def locateResult (env : AttemptEnv) : Option (PlayerStateSnapshot × String) :=
  (List.range 20).findSome? (fun i =>
    match env.playerState i, attemptUrl (env.playerState i) (env.videoSrc i) with
    | some ps, some u => some (ps, u)
    | _, _ => none)

/-- The display-title derivation (preload.ts 1696-1705): content name with
`S<season>E<episode>` suffix when name, season and episode are all truthy;
plain content name when only the name is truthy; the top-level
`title` when the name is absent; otherwise the literal fallback
`"Stremio Stream"`. -/
def buildTitle (p : PlayerStateSnapshot) : String :=
  match truthyStr p.metaName with
  | some name =>
    match truthyNat p.season, truthyNat p.episode with
    | some se, some ep => name ++ " S" ++ toString se ++ "E" ++ toString ep
    | _, _ => name
  | none =>
    match truthyStr p.titleField with
    | some t => t
    | none => "Stremio Stream"

/-- Session state shared by the interception machine: the
`isHandlingExternalPlayer` busy flag and whether `document.body` carries the
`external-player-active` marker class. -/
structure InterceptState where
  isHandlingExternalPlayer : Bool
  externalPlayerActiveClass : Bool
deriving DecidableEq, Repr

/-- The payload of one `LAUNCH_EXTERNAL_PLAYER` IPC dispatch
(preload.ts 1725-1730). -/
structure LaunchRequest where
  player : String
  url : String
  title : String
  customPath : Option String
deriving DecidableEq, Repr

/-- `handleExternalPlayerInterception` (preload.ts 1527-1757) as a pure
function: given the stored external-player setting, the stored custom path
setting and the locator environment, it maps the session state at entry to
the session state once the call has fully completed (including the 10 s
cooldown on the launch path) together with the list of launch IPC dispatches
made during the call.  Video pause/mute side effects and the final
`history.back()` navigation are not modelled. -/
def handleExternalPlayerInterception (externalPlayer : Option String)
    (customPathSetting : Option String) (env : AttemptEnv)
    (st : InterceptState) : InterceptState × List LaunchRequest :=
  if st.isHandlingExternalPlayer then (st, [])
  else if externalPlayer = none ∨ externalPlayer = some EXTERNAL_PLAYERS_BUILTIN ∨
      externalPlayer = some "" ∨ externalPlayer = some "disabled" ∨
      externalPlayer = some "m3u" then
    ({ isHandlingExternalPlayer := st.isHandlingExternalPlayer
       externalPlayerActiveClass := false }, [])
  else if externalPlayer ≠ some "vlc" ∧ externalPlayer ≠ some "mpchc" then
    ({ isHandlingExternalPlayer := st.isHandlingExternalPlayer
       externalPlayerActiveClass := false }, [])
  else
    match locateResult env with
    | none =>
      ({ isHandlingExternalPlayer := false, externalPlayerActiveClass := false }, [])
    | some (ps, url) =>
      ({ isHandlingExternalPlayer := false, externalPlayerActiveClass := false },
        [{ player := externalPlayer.getD "", url := url, title := buildTitle ps
           customPath := truthyStr customPathSetting }])

/-! ### Quick-Resume Store (preload.ts 1879-2048) -/

/-- `SavedStreamInfo` (preload.ts 1879-1888).  The optional `streamUrl`
debug field is never written by `saveCurrentStreamInfo` and is omitted. -/
structure SavedStreamInfo where
  streamHash : String
  videoId : String
  contentId : String
  type : String
  season : Option Nat
  episode : Option Nat
  timestamp : Nat
deriving DecidableEq, Repr

/-- The persisted map, as a key-value list in JS object insertion order. -/
abbrev StreamMap := List (String × SavedStreamInfo)

/-- JS object property assignment `obj[k] = v`: an existing key keeps its
position and gets the new value, a new key is appended. -/
def setKey : StreamMap → String → SavedStreamInfo → StreamMap
  | [], k, v => [(k, v)]
  | kv :: rest, k, v => if kv.1 = k then (k, v) :: rest else kv :: setKey rest k v

/-- JS object property read `obj[k]`, with a missing key read as null. -/
def lookupKey : StreamMap → String → Option SavedStreamInfo
  | [], _ => none
  | kv :: rest, k => if kv.1 = k then some kv.2 else lookupKey rest k

/-- Stable insertion of an entry into a timestamp-descending list: the entry
goes before the first strictly older entry, so equal timestamps keep their
original order, matching the stable `Array.sort` of V8. -/
def insertByTimestampDesc (x : String × SavedStreamInfo) : StreamMap → StreamMap
  | [] => [x]
  | y :: ys =>
    if y.2.timestamp < x.2.timestamp then x :: y :: ys
    else y :: insertByTimestampDesc x ys

/-- The stable sort `entries.sort((a, b) => b[1].timestamp - a[1].timestamp)`
(preload.ts 1958): newest first. -/
def sortByTimestampDesc : StreamMap → StreamMap
  | [] => []
  | x :: xs => insertByTimestampDesc x (sortByTimestampDesc xs)

/-- The 100-entry cap (preload.ts 1956-1963): only when the map exceeds 100
entries is it sorted newest-first and truncated to the newest 100. -/
def trimStreams (m : StreamMap) : StreamMap :=
  if 100 < m.length then (sortByTimestampDesc m).take 100 else m

/-- The storage key chosen by `saveCurrentStreamInfo` (preload.ts
1937-1940): `contentId:episodeId` for a series with a truthy episode id in
the route, bare `contentId` otherwise. -/
def storageKeyOf (info : SavedStreamInfo) (episodeId : Option String) : String :=
  match truthyStr episodeId with
  | some e => if info.type = "series" then info.contentId ++ ":" ++ e else info.contentId
  | none => info.contentId

/-- The map update performed by `saveCurrentStreamInfo` (preload.ts
1942-1963): store under the storage key, duplicate under the bare content id
for series, then enforce the 100-entry cap. -/
def saveStreamStep (m : StreamMap) (info : SavedStreamInfo)
    (episodeId : Option String) : StreamMap :=
  let m1 := setKey m (storageKeyOf info episodeId) info
  let m2 := if info.type = "series" then setKey m1 info.contentId info else m1
  trimStreams m2

/-- The raw persisted value under `STORAGE_KEYS.LAST_STREAMS`: absent
(`localStorage.getItem` returns null, which the `or`-default turns into
the empty object), malformed (JSON.parse throws), or a well-formed serialized map. -/
inductive StoredValue where
  | absent
  | malformed
  | wellFormed (m : StreamMap)
deriving DecidableEq, Repr

/-- `getSavedStreamInfo` (preload.ts 1972-1981): a missing value is read as
the empty object, and a parse failure is caught and returned as null. -/
def getSavedStreamInfo (stored : StoredValue) (contentId : String) : Option SavedStreamInfo :=
  match stored with
  | StoredValue.absent => lookupKey [] contentId
  | StoredValue.malformed => none
  | StoredValue.wellFormed m => lookupKey m contentId

/-- The persistence effect of `saveCurrentStreamInfo` (preload.ts
1891-1969): its whole body runs inside a try/catch, so over a missing value
the map is read as empty and the entry is saved, but over a malformed value
`JSON.parse` throws, the catch logs a warning, and the stored value is left
untouched — the entry is not saved. -/
def saveCurrentStreamInfoStore (stored : StoredValue) (info : SavedStreamInfo)
    (episodeId : Option String) : StoredValue :=
  match stored with
  | StoredValue.absent => StoredValue.wellFormed (saveStreamStep [] info episodeId)
  | StoredValue.malformed => StoredValue.malformed
  | StoredValue.wellFormed m => StoredValue.wellFormed (saveStreamStep m info episodeId)

/-- The 30-day recency cutoff (preload.ts 2020). -/
def thirtyDaysMs : Nat := 30 * 24 * 60 * 60 * 1000

/-- The player route built from a cached fingerprint (preload.ts
2026-2032): `#/player/{videoId}/{streamHash}`, extended with
`/{season}:{episode}` for a series whose season and episode are truthy. -/
def buildQuickResumeUrl (s : SavedStreamInfo) : String :=
  let base := "#/player/" ++ s.videoId ++ "/" ++ s.streamHash
  if s.type = "series" then
    match truthyNat s.season, truthyNat s.episode with
    | some se, some ep => base ++ "/" ++ toString se ++ ":" ++ toString ep
    | _, _ => base
  else base

/-- The quick-resume decision of `handleContinueWatchingClick` (preload.ts
2011-2041) once the content id has been resolved from the clicked card:
`none` means the click falls through to normal host navigation, and
`some url` means default navigation is prevented and `location.hash` is set
to `url`. -/
def handleContinueWatchingDecision (stored : StoredValue) (contentId : String)
    (now : Nat) : Option String :=
  match getSavedStreamInfo stored contentId with
  | none => none
  | some s =>
    if thirtyDaysMs < now - s.timestamp then none
    else some (buildQuickResumeUrl s)

/-! ### Global video-play interception (`setupGlobalVideoInterception`,
preload.ts 2051-2077) -/

/-- The observable mutable state of a video element touched by the play
override. -/
structure VideoElement where
  paused : Bool
  muted : Bool
deriving DecidableEq, Repr

/-- What the overridden `HTMLVideoElement.prototype.play` returns: a
promise resolved immediately (`Promise.resolve()`, the blocked path) or the
result of calling the original `play` method. -/
inductive PlayOutcome where
  | blockedResolved
  | delegatedOriginal
deriving DecidableEq, Repr

/-- The overridden `HTMLVideoElement.prototype.play` (preload.ts
2054-2077): when a truthy external-player setting other than builtin,
`disabled` or `m3u` is stored and the location is a player route, the video
is paused and muted and a resolved promise is returned; otherwise the
original play method is invoked on the unchanged element. -/
def videoPlayOverride (externalPlayer : Option String) (href : String)
    (v : VideoElement) : VideoElement × PlayOutcome :=
  match truthyStr externalPlayer with
  | some p =>
    if p ≠ EXTERNAL_PLAYERS_BUILTIN ∧ p ≠ "disabled" ∧ p ≠ "m3u" ∧
        strIncludes href "#/player" = true then
      ({ paused := true, muted := true }, PlayOutcome.blockedResolved)
    else (v, PlayOutcome.delegatedOriginal)
  | none => (v, PlayOutcome.delegatedOriginal)

/-! ### Shared helper lemmas and concrete inputs -/

/-- An environment whose state accessor and video element never yield
anything on any attempt. -/
def emptyEnv : AttemptEnv := { playerState := fun _ => none, videoSrc := fun _ => none }

/-- A snapshot holding a ready stream URL but no content name, no series
info and no top-level title. -/
def c1Snapshot : PlayerStateSnapshot :=
  { streamContentUrl := some "https://x/stream.m3u8", selectedDeepLink := none
    streamUrl := none, streamExternalUrl := none, metaName := none
    season := none, episode := none, titleField := none }

/-- An environment that resolves `c1Snapshot` on every attempt. -/
def c1Env : AttemptEnv :=
  { playerState := fun _ => some c1Snapshot, videoSrc := fun _ => none }

/-- `findSome?` over a list misses when the function misses on every
element. -/
theorem findSome?_eq_none_of_all {α β : Type} {f : α → Option β} :
    ∀ {l : List α}, (∀ x ∈ l, f x = none) → l.findSome? f = none
  | [], _ => rfl
  | x :: xs, h => by
    have hx := h x (List.mem_cons_self x xs)
    have hxs : ∀ y ∈ xs, f y = none := fun y hy => h y (List.mem_cons_of_mem x hy)
    simp [List.findSome?, hx, findSome?_eq_none_of_all hxs]

/-! ### Claim theorems -/

/-- C2: invoking the interception entry point while a session is already in
progress (the `isHandlingExternalPlayer` busy flag is true) is a no-op: the
session state is returned unchanged (busy flag and body marker class
untouched) and no launch request is dispatched, so at most one interception
session exists at a time. -/
theorem c2_reentrancy_guard (externalPlayer customPathSetting : Option String)
    (env : AttemptEnv) (st : InterceptState)
    (h : st.isHandlingExternalPlayer = true) :
    handleExternalPlayerInterception externalPlayer customPathSetting env st = (st, []) := by
  unfold handleExternalPlayerInterception
  simp [h]

/-- Witness for C2 at a concrete busy session state. -/
theorem c2_reentrancy_guard_witness :
    handleExternalPlayerInterception (some "vlc") none emptyEnv
      { isHandlingExternalPlayer := true, externalPlayerActiveClass := true } =
      ({ isHandlingExternalPlayer := true, externalPlayerActiveClass := true }, []) :=
  c2_reentrancy_guard (some "vlc") none emptyEnv
    { isHandlingExternalPlayer := true, externalPlayerActiveClass := true } rfl

/-- C3: when no attempt of the 20-attempt retry loop finds an http-shaped
string in any of the candidate player-state fields or on the rendered video
element source, the locator yields none and the interception routine
returns to Idle: the busy flag is cleared, the marker class is removed, and
no launch request is dispatched. -/
theorem c3_locator_exhaustion (p : String) (hp : p = "vlc" ∨ p = "mpchc")
    (customPathSetting : Option String) (env : AttemptEnv)
    (hfields : ∀ i, i < 20 → ∀ ps, env.playerState i = some ps →
      firstHttp (candidateUrls ps) = none ∧
      ∀ v, truthyStr (env.videoSrc i) = some v → isHttpUrl v = false)
    (st : InterceptState) (hst : st.isHandlingExternalPlayer = false) :
    locateResult env = none ∧
    handleExternalPlayerInterception (some p) customPathSetting env st =
      ({ isHandlingExternalPlayer := false, externalPlayerActiveClass := false }, []) := by
  have hloc : locateResult env = none := by
    unfold locateResult
    apply findSome?_eq_none_of_all
    intro i hi
    rw [List.mem_range] at hi
    rcases h1 : env.playerState i with _ | ps
    · simp [h1]
    · obtain ⟨hcand, hvid⟩ := hfields i hi ps h1
      have hau : attemptUrl (some ps) (env.videoSrc i) = none := by
        rcases h2 : truthyStr (env.videoSrc i) with _ | v
        · simp [attemptUrl, hcand, h2]
        · simp [attemptUrl, hcand, h2, hvid v h2]
      simp [h1, hau]
  refine ⟨hloc, ?_⟩
  rcases hp with rfl | rfl <;>
    simp [handleExternalPlayerInterception, EXTERNAL_PLAYERS_BUILTIN, hst, hloc]

/-- Witness for C3: an environment that never yields a state or a video
source exhausts all attempts. -/
theorem c3_locator_exhaustion_witness :
    locateResult emptyEnv = none ∧
    handleExternalPlayerInterception (some "vlc") none emptyEnv
      { isHandlingExternalPlayer := false, externalPlayerActiveClass := false } =
      ({ isHandlingExternalPlayer := false, externalPlayerActiveClass := false }, []) :=
  c3_locator_exhaustion "vlc" (Or.inl rfl) none emptyEnv
    (fun _ _ _ h => Option.noConfusion h)
    { isHandlingExternalPlayer := false, externalPlayerActiveClass := false } rfl

/-- C1 counterexample: with external player `vlc`, a locator that resolves
`https://x/stream.m3u8`, and a session with no content name and no title
field, exactly one launch request is dispatched but its display title is the
literal `"Stremio Stream"`, not the claimed fallback `"Stream"`. -/
theorem c1_fallback_title_counterexample :
    (handleExternalPlayerInterception (some "vlc") none c1Env
        { isHandlingExternalPlayer := false, externalPlayerActiveClass := false }).2 =
      [{ player := "vlc", url := "https://x/stream.m3u8", title := "Stremio Stream"
         customPath := none }] ∧
    ({ player := "vlc", url := "https://x/stream.m3u8", title := "Stremio Stream"
       customPath := none } : LaunchRequest).title ≠ "Stream" := by
  constructor
  · decide
  · decide

/-- C1 (amended): for an interception session with player `vlc` or `mpchc`
whose locator resolves a URL within the attempt budget, exactly one launch
request is dispatched, carrying the configured player kind, the resolved
URL, the truthy custom executable path, and a display title that equals the
content name plus `" S<season>E<episode>"` when the name is present and both
season and episode are known and nonzero, the plain content name when only
the name is known, the session title field when the content name is absent
but a title field is present, and the fallback title `"Stremio Stream"`
otherwise. -/
theorem c1_single_launch_dispatch (p : String) (hp : p = "vlc" ∨ p = "mpchc")
    (customPathSetting : Option String) (env : AttemptEnv)
    (ps : PlayerStateSnapshot) (url : String)
    (hloc : locateResult env = some (ps, url))
    (st : InterceptState) (hst : st.isHandlingExternalPlayer = false) :
    (handleExternalPlayerInterception (some p) customPathSetting env st).2 =
      [{ player := p, url := url, title := buildTitle ps
         customPath := truthyStr customPathSetting }] ∧
    (∀ name se ep, truthyStr ps.metaName = some name →
      truthyNat ps.season = some se → truthyNat ps.episode = some ep →
      buildTitle ps = name ++ " S" ++ toString se ++ "E" ++ toString ep) ∧
    (∀ name, truthyStr ps.metaName = some name →
      truthyNat ps.season = none ∨ truthyNat ps.episode = none →
      buildTitle ps = name) ∧
    (∀ t, truthyStr ps.metaName = none → truthyStr ps.titleField = some t →
      buildTitle ps = t) ∧
    (truthyStr ps.metaName = none → truthyStr ps.titleField = none →
      buildTitle ps = "Stremio Stream") := by
  refine ⟨?_, ?_, ?_, ?_, ?_⟩
  · rcases hp with rfl | rfl <;>
      simp [handleExternalPlayerInterception, EXTERNAL_PLAYERS_BUILTIN, hst, hloc]
  · intro name se ep h1 h2 h3
    simp [buildTitle, h1, h2, h3]
  · intro name h1 h2
    rcases h2 with h2 | h2 <;> simp [buildTitle, h1, h2]
  · intro t h1 h2
    simp [buildTitle, h1, h2]
  · intro h1 h2
    simp [buildTitle, h1, h2]

/-- Witness for C1 (amended) at the concrete resolving environment. -/
theorem c1_single_launch_dispatch_witness :
    (handleExternalPlayerInterception (some "vlc") none c1Env
        { isHandlingExternalPlayer := false, externalPlayerActiveClass := false }).2 =
      [{ player := "vlc", url := "https://x/stream.m3u8", title := buildTitle c1Snapshot
         customPath := truthyStr none }] :=
  (c1_single_launch_dispatch "vlc" (Or.inl rfl) none c1Env c1Snapshot
    "https://x/stream.m3u8" (by decide)
    { isHandlingExternalPlayer := false, externalPlayerActiveClass := false } rfl).1

/-- C6: unregistering the last handler disconnects and discards the
underlying watcher, and registering a new handler afterward lazily recreates
and restarts it. -/
theorem c6_watcher_lifecycle (s : ObserverSystem) (id id2 : String)
    (hlast : s.handlerIds.filter (fun k => k != id) = []) :
    (unregisterObserverHandler s id).unifiedObserver = false ∧
    (unregisterObserverHandler s id).handlerIds = [] ∧
    (registerObserverHandler (unregisterObserverHandler s id) id2).unifiedObserver = true ∧
    (registerObserverHandler (unregisterObserverHandler s id) id2).handlerIds = [id2] := by
  have h1 : unregisterObserverHandler s id =
      { handlerIds := [], unifiedObserver := false } := by
    unfold unregisterObserverHandler
    rw [hlast]
    cases s.unifiedObserver <;> simp
  rw [h1]
  simp [registerObserverHandler, initUnifiedObserver, mapSetKey]

/-- Witness for C6 at a one-handler running system. -/
theorem c6_watcher_lifecycle_witness :
    (unregisterObserverHandler { handlerIds := ["x"], unifiedObserver := true } "x").unifiedObserver = false ∧
    (unregisterObserverHandler { handlerIds := ["x"], unifiedObserver := true } "x").handlerIds = [] ∧
    (registerObserverHandler
      (unregisterObserverHandler { handlerIds := ["x"], unifiedObserver := true } "x") "y").unifiedObserver = true ∧
    (registerObserverHandler
      (unregisterObserverHandler { handlerIds := ["x"], unifiedObserver := true } "x") "y").handlerIds = ["y"] :=
  c6_watcher_lifecycle { handlerIds := ["x"], unifiedObserver := true } "x" "y" (by decide)

/-- C7: a quick-resume lookup for a saved entry more than 30 days old is
rejected and falls through to normal navigation; one 30 days old or newer is
accepted and navigates to the player route built from the cached
fingerprint: `#/player/<videoId>/<streamHash>` with a `/<season>:<episode>`
segment for a series. -/
theorem c7_quick_resume_recency (stored : StoredValue) (cid : String)
    (s : SavedStreamInfo) (now : Nat)
    (hfound : getSavedStreamInfo stored cid = some s) :
    (thirtyDaysMs < now - s.timestamp →
      handleContinueWatchingDecision stored cid now = none) ∧
    (now - s.timestamp ≤ thirtyDaysMs →
      handleContinueWatchingDecision stored cid now = some (buildQuickResumeUrl s) ∧
      (s.type = "series" →
        ∀ se ep, truthyNat s.season = some se → truthyNat s.episode = some ep →
          buildQuickResumeUrl s =
            "#/player/" ++ s.videoId ++ "/" ++ s.streamHash ++ "/" ++
              toString se ++ ":" ++ toString ep) ∧
      (s.type ≠ "series" →
        buildQuickResumeUrl s = "#/player/" ++ s.videoId ++ "/" ++ s.streamHash)) := by
  constructor
  · intro hold
    simp [handleContinueWatchingDecision, hfound, hold]
  · intro hfresh
    have hnot : ¬ thirtyDaysMs < now - s.timestamp := by omega
    refine ⟨by simp [handleContinueWatchingDecision, hfound, hnot], ?_, ?_⟩
    · intro hser se ep h1 h2
      simp [buildQuickResumeUrl, hser, h1, h2]
    · intro hser
      simp [buildQuickResumeUrl, hser]

/-- A concrete saved series fingerprint with timestamp 0. -/
def c7Saved : SavedStreamInfo :=
  { streamHash := "hashA", videoId := "vid1", contentId := "tt7", type := "series"
    season := some 1, episode := some 2, timestamp := 0 }

/-- Witness for C7: an entry 29 days old is accepted, one 31 days old is
rejected. -/
theorem c7_quick_resume_recency_witness :
    handleContinueWatchingDecision (StoredValue.wellFormed [("tt7", c7Saved)])
      "tt7" 2505600000 = some (buildQuickResumeUrl c7Saved) ∧
    handleContinueWatchingDecision (StoredValue.wellFormed [("tt7", c7Saved)])
      "tt7" 2678400000 = none :=
  ⟨((c7_quick_resume_recency (StoredValue.wellFormed [("tt7", c7Saved)]) "tt7" c7Saved
      2505600000 (by decide)).2 (by decide)).1,
   (c7_quick_resume_recency (StoredValue.wellFormed [("tt7", c7Saved)]) "tt7" c7Saved
      2678400000 (by decide)).1 (by decide)⟩

/-- C10: when a truthy external player other than builtin, `disabled` or the
`m3u` pass-through is stored and the location is a player route, the play
override pauses and mutes the element and returns the resolved promise (it
never rejects), so callers observe success while playback is blocked; in
every other case the original play method is invoked on the unchanged
element. -/
theorem c10_video_play_override (externalPlayer : Option String) (href : String)
    (v : VideoElement) :
    (∀ p, truthyStr externalPlayer = some p → p ≠ EXTERNAL_PLAYERS_BUILTIN →
      p ≠ "disabled" → p ≠ "m3u" → strIncludes href "#/player" = true →
      videoPlayOverride externalPlayer href v =
        ({ paused := true, muted := true }, PlayOutcome.blockedResolved)) ∧
    (truthyStr externalPlayer = none →
      videoPlayOverride externalPlayer href v = (v, PlayOutcome.delegatedOriginal)) ∧
    (∀ p, truthyStr externalPlayer = some p →
      p = EXTERNAL_PLAYERS_BUILTIN ∨ p = "disabled" ∨ p = "m3u" ∨
        strIncludes href "#/player" = false →
      videoPlayOverride externalPlayer href v = (v, PlayOutcome.delegatedOriginal)) := by
  refine ⟨?_, ?_, ?_⟩
  · intro p hp h1 h2 h3 h4
    simp [videoPlayOverride, hp, h1, h2, h3, h4]
  · intro hp
    simp [videoPlayOverride, hp]
  · intro p hp hd
    have hneg : ¬(p ≠ EXTERNAL_PLAYERS_BUILTIN ∧ p ≠ "disabled" ∧ p ≠ "m3u" ∧
        strIncludes href "#/player" = true) := by
      rcases hd with h | h | h | h <;> simp [h]
    simp [videoPlayOverride, hp, hneg]

/-- Witness for C10: `vlc` on a player route blocks play, and the builtin
setting delegates to the original method. -/
theorem c10_video_play_override_witness :
    videoPlayOverride (some "vlc") "#/player/vid1/hashA"
      { paused := false, muted := false } =
      ({ paused := true, muted := true }, PlayOutcome.blockedResolved) ∧
    videoPlayOverride (some "builtin") "#/player/vid1/hashA"
      { paused := false, muted := false } =
      ({ paused := false, muted := false }, PlayOutcome.delegatedOriginal) :=
  ⟨(c10_video_play_override (some "vlc") "#/player/vid1/hashA"
      { paused := false, muted := false }).1 "vlc" (by decide) (by decide) (by decide)
      (by decide) (by decide),
   (c10_video_play_override (some "builtin") "#/player/vid1/hashA"
      { paused := false, muted := false }).2.2 "builtin" (by decide)
      (Or.inl (by decide))⟩

/-- Setting a key makes it readable with the stored value. -/
theorem lookupKey_setKey_self (m : StreamMap) (k : String) (v : SavedStreamInfo) :
    lookupKey (setKey m k v) k = some v := by
  induction m with
  | nil => simp [setKey, lookupKey]
  | cons kv rest ih =>
    by_cases h : kv.1 = k
    · simp [setKey, h, lookupKey]
    · simp [setKey, h, lookupKey, ih]

/-- Setting a key leaves every other key unchanged. -/
theorem lookupKey_setKey_other (m : StreamMap) (k k2 : String) (v : SavedStreamInfo)
    (h : k2 ≠ k) : lookupKey (setKey m k v) k2 = lookupKey m k2 := by
  induction m with
  | nil => simp [setKey, lookupKey, Ne.symm h]
  | cons kv rest ih =>
    by_cases hk : kv.1 = k
    · have h1 : ¬ k = k2 := Ne.symm h
      have h2 : ¬ kv.1 = k2 := by rw [hk]; exact h1
      simp [setKey, hk, lookupKey, h1, h2]
    · by_cases hk2 : kv.1 = k2
      · simp [setKey, hk, lookupKey, hk2, h]
      · simp [setKey, hk, lookupKey, hk2, ih]

/-- A concrete movie record used in the C8 scenario. -/
def c8Info : SavedStreamInfo :=
  { streamHash := "h1", videoId := "v1", contentId := "tt1", type := "movie"
    season := none, episode := none, timestamp := 5 }

/-- C8 counterexample: a save performed over a malformed persisted map does
not behave as if the map were empty — the value stays malformed and the new
entry is absent, whereas the same save over a missing map does store the
entry. -/
theorem c8_corrupt_save_counterexample :
    saveCurrentStreamInfoStore StoredValue.malformed c8Info none = StoredValue.malformed ∧
    getSavedStreamInfo (saveCurrentStreamInfoStore StoredValue.malformed c8Info none) "tt1" = none ∧
    getSavedStreamInfo (saveCurrentStreamInfoStore StoredValue.absent c8Info none) "tt1" = some c8Info := by
  decide

/-- C8 (amended): a corrupt or missing persisted quick-resume map never
raises an error: lookup of any contentId over either returns null; a save
over a missing map behaves as if the map were empty (the new entry is
stored under its storage key); but a save over a malformed map is silently
abandoned — the persisted value is left unchanged and no entry is stored. -/
theorem c8_corrupt_store_semantics (cid : String) (info : SavedStreamInfo)
    (episodeId : Option String) :
    getSavedStreamInfo StoredValue.malformed cid = none ∧
    getSavedStreamInfo StoredValue.absent cid = none ∧
    saveCurrentStreamInfoStore StoredValue.absent info episodeId =
      StoredValue.wellFormed (saveStreamStep [] info episodeId) ∧
    lookupKey (saveStreamStep [] info episodeId) (storageKeyOf info episodeId) = some info ∧
    saveCurrentStreamInfoStore StoredValue.malformed info episodeId = StoredValue.malformed := by
  refine ⟨rfl, rfl, rfl, ?_, rfl⟩
  have hm1 : setKey [] (storageKeyOf info episodeId) info =
      [(storageKeyOf info episodeId, info)] := rfl
  by_cases hser : info.type = "series"
  · by_cases hkc : storageKeyOf info episodeId = info.contentId
    · simp [saveStreamStep, hser, hm1, hkc, setKey, trimStreams, lookupKey]
    · have h2 : setKey [(storageKeyOf info episodeId, info)] info.contentId info =
          [(storageKeyOf info episodeId, info), (info.contentId, info)] := by
        simp [setKey, hkc]
      simp [saveStreamStep, hser, hm1, h2, trimStreams, lookupKey]
  · simp [saveStreamStep, hser, hm1, trimStreams, lookupKey]

/-- Witness for C8 (amended) at a concrete content id and record. -/
theorem c8_corrupt_store_semantics_witness :
    getSavedStreamInfo StoredValue.malformed "tt1" = none ∧
    getSavedStreamInfo StoredValue.absent "tt1" = none ∧
    saveCurrentStreamInfoStore StoredValue.absent c8Info none =
      StoredValue.wellFormed (saveStreamStep [] c8Info none) ∧
    lookupKey (saveStreamStep [] c8Info none) (storageKeyOf c8Info none) = some c8Info ∧
    saveCurrentStreamInfoStore StoredValue.malformed c8Info none = StoredValue.malformed :=
  c8_corrupt_store_semantics "tt1" c8Info none

/-- Inserting into the timestamp-sorted list is a permutation of consing. -/
theorem insertByTimestampDesc_perm (x : String × SavedStreamInfo) :
    ∀ l : StreamMap, List.Perm (insertByTimestampDesc x l) (x :: l)
  | [] => List.Perm.refl _
  | y :: ys => by
    by_cases h : y.2.timestamp < x.2.timestamp
    · simp only [insertByTimestampDesc, if_pos h]
      exact List.Perm.refl _
    · simp only [insertByTimestampDesc, if_neg h]
      exact ((insertByTimestampDesc_perm x ys).cons y).trans (List.Perm.swap x y ys)

/-- The timestamp sort permutes its input. -/
theorem sortByTimestampDesc_perm :
    ∀ l : StreamMap, List.Perm (sortByTimestampDesc l) l
  | [] => List.Perm.refl _
  | x :: xs =>
    (insertByTimestampDesc_perm x (sortByTimestampDesc xs)).trans
      ((sortByTimestampDesc_perm xs).cons x)

/-- Members of the insertion are the inserted element or old members. -/
theorem mem_insertByTimestampDesc {x z : String × SavedStreamInfo} {l : StreamMap}
    (h : z ∈ insertByTimestampDesc x l) : z = x ∨ z ∈ l := by
  have h2 := (insertByTimestampDesc_perm x l).mem_iff.mp h
  simpa using h2

/-- Inserting into a timestamp-descending list keeps it descending. -/
theorem pairwise_insertByTimestampDesc (x : String × SavedStreamInfo) :
    ∀ l : StreamMap,
      l.Pairwise (fun a b => b.2.timestamp ≤ a.2.timestamp) →
      (insertByTimestampDesc x l).Pairwise (fun a b => b.2.timestamp ≤ a.2.timestamp)
  | [], _ => by simp [insertByTimestampDesc]
  | y :: ys, hp => by
    rw [List.pairwise_cons] at hp
    obtain ⟨hy, hys⟩ := hp
    by_cases h : y.2.timestamp < x.2.timestamp
    · simp only [insertByTimestampDesc, if_pos h]
      rw [List.pairwise_cons]
      refine ⟨?_, ?_⟩
      · intro z hz
        rcases List.mem_cons.mp hz with rfl | hz2
        · exact Nat.le_of_lt h
        · exact Nat.le_trans (hy z hz2) (Nat.le_of_lt h)
      · rw [List.pairwise_cons]
        exact ⟨hy, hys⟩
    · simp only [insertByTimestampDesc, if_neg h]
      rw [List.pairwise_cons]
      refine ⟨?_, ?_⟩
      · intro z hz
        rcases mem_insertByTimestampDesc hz with rfl | hz2
        · exact Nat.le_of_not_lt h
        · exact hy z hz2
      · exact pairwise_insertByTimestampDesc x ys hys

/-- The timestamp sort yields a timestamp-descending list. -/
theorem pairwise_sortByTimestampDesc :
    ∀ l : StreamMap,
      (sortByTimestampDesc l).Pairwise (fun a b => b.2.timestamp ≤ a.2.timestamp)
  | [] => List.Pairwise.nil
  | x :: xs => pairwise_insertByTimestampDesc x _ (pairwise_sortByTimestampDesc xs)

/-- Sorting preserves length. -/
theorem length_sortByTimestampDesc (l : StreamMap) :
    (sortByTimestampDesc l).length = l.length :=
  (sortByTimestampDesc_perm l).length_eq

/-- The cap step never leaves more than 100 entries. -/
theorem trimStreams_length_le (m : StreamMap) : (trimStreams m).length ≤ 100 := by
  unfold trimStreams
  by_cases h : 100 < m.length
  · rw [if_pos h]
    rw [List.length_take, length_sortByTimestampDesc]
    omega
  · rw [if_neg h]
    omega

/-- When the map exceeds the cap, exactly 100 entries remain. -/
theorem trimStreams_length_eq (m : StreamMap) (h : 100 < m.length) :
    (trimStreams m).length = 100 := by
  unfold trimStreams
  rw [if_pos h, List.length_take, length_sortByTimestampDesc]
  omega

/-- A map within the cap is left untouched by the cap step. -/
theorem trimStreams_of_le (m : StreamMap) (h : m.length ≤ 100) : trimStreams m = m := by
  unfold trimStreams
  rw [if_neg (by omega)]

/-- Eviction removes oldest-first: every evicted entry is at most as new as
every retained entry. -/
theorem trimStreams_evicts_oldest (m : StreamMap) (h : 100 < m.length)
    (a : String × SavedStreamInfo) (ha : a ∈ trimStreams m)
    (b : String × SavedStreamInfo) (hb : b ∈ m) (hb2 : b ∉ trimStreams m) :
    b.2.timestamp ≤ a.2.timestamp := by
  have htake : trimStreams m = (sortByTimestampDesc m).take 100 := by
    unfold trimStreams
    rw [if_pos h]
  rw [htake] at ha hb2
  have hsortmem : b ∈ sortByTimestampDesc m := (sortByTimestampDesc_perm m).mem_iff.mpr hb
  rw [← List.take_append_drop 100 (sortByTimestampDesc m), List.mem_append] at hsortmem
  rcases hsortmem with h1 | h1
  · exact absurd h1 hb2
  · have hp : (List.take 100 (sortByTimestampDesc m) ++
        List.drop 100 (sortByTimestampDesc m)).Pairwise
        (fun a b => b.2.timestamp ≤ a.2.timestamp) := by
      rw [List.take_append_drop]
      exact pairwise_sortByTimestampDesc m
    exact (List.pairwise_append.mp hp).2.2 a ha b h1

/-- A series-to-bare content key can never collide with the bare key. -/
theorem key_colon_ne (c e : String) : ¬ (c ++ ":" ++ e = c) := by
  intro hk
  have h2 := congrArg String.length hk
  rw [String.length_append, String.length_append] at h2
  have h3 : (":" : String).length = 1 := rfl
  rw [h3] at h2
  omega

/-- The i-th distinct movie save of the C4 scenario: fresh keys and a
strictly increasing timestamp. -/
def c4SaveInfo (i : Nat) : SavedStreamInfo :=
  { streamHash := "h" ++ toString i, videoId := "v" ++ toString i
    contentId := "c" ++ toString i, type := "movie"
    season := none, episode := none, timestamp := i }

/-- The persisted map after n successive distinct movie saves. -/
def c4RunSaves (n : Nat) : StreamMap :=
  (List.range n).foldl (fun m i => saveStreamStep m (c4SaveInfo i) none) []

/-- A concrete series record used in the C4 witness. -/
def c4SeriesInfo : SavedStreamInfo :=
  { streamHash := "hs", videoId := "vs", contentId := "tt4", type := "series"
    season := some 1, episode := some 2, timestamp := 7 }

/-- A concrete 101-entry map used in the C4 witness. -/
def c4Map101 : StreamMap :=
  (List.range 101).map (fun i => ("k" ++ toString i, c4SaveInfo i))

set_option maxRecDepth 1000000 in
/-- C4: a series save writes the same record under both `contentId:episodeId`
and the bare content id while a movie save writes only under the content id;
every save leaves at most 100 entries, an insertion beyond the cap keeps
exactly 100 entries evicting the oldest timestamps first, and after 101
distinct saves exactly 100 entries remain with the oldest-timestamp entry
absent. -/
theorem c4_persisted_cap_and_keys :
    (∀ (m : StreamMap) (info : SavedStreamInfo) (episodeId : Option String),
      (saveStreamStep m info episodeId).length ≤ 100) ∧
    (∀ (m : StreamMap) (info : SavedStreamInfo) (e : String),
      info.type = "series" → ¬ e = "" →
      saveStreamStep m info (some e) =
        trimStreams (setKey (setKey m (info.contentId ++ ":" ++ e) info) info.contentId info) ∧
      lookupKey (setKey (setKey m (info.contentId ++ ":" ++ e) info) info.contentId info)
        (info.contentId ++ ":" ++ e) = some info ∧
      lookupKey (setKey (setKey m (info.contentId ++ ":" ++ e) info) info.contentId info)
        info.contentId = some info ∧
      ((setKey (setKey m (info.contentId ++ ":" ++ e) info) info.contentId info).length ≤ 100 →
        saveStreamStep m info (some e) =
          setKey (setKey m (info.contentId ++ ":" ++ e) info) info.contentId info)) ∧
    (∀ (m : StreamMap) (info : SavedStreamInfo) (episodeId : Option String) (k : String),
      ¬ info.type = "series" →
      saveStreamStep m info episodeId = trimStreams (setKey m info.contentId info) ∧
      (¬ k = info.contentId → lookupKey (setKey m info.contentId info) k = lookupKey m k)) ∧
    (∀ (m : StreamMap) (a b : String × SavedStreamInfo), 100 < m.length →
      a ∈ trimStreams m → b ∈ m → b ∉ trimStreams m →
      b.2.timestamp ≤ a.2.timestamp) ∧
    (∀ m : StreamMap, 100 < m.length → (trimStreams m).length = 100) ∧
    (c4RunSaves 101).length = 100 ∧
    lookupKey (c4RunSaves 101) "c0" = none ∧
    lookupKey (c4RunSaves 101) "c100" = some (c4SaveInfo 100) := by
  refine ⟨?_, ?_, ?_, ?_, ?_, ?_, ?_, ?_⟩
  · intro m info episodeId
    exact trimStreams_length_le _
  · intro m info e hser he
    have hkey : storageKeyOf info (some e) = info.contentId ++ ":" ++ e := by
      simp [storageKeyOf, truthyStr, he, hser]
    refine ⟨by simp [saveStreamStep, hser, hkey], ?_, ?_, ?_⟩
    · rw [lookupKey_setKey_other _ _ _ _ (key_colon_ne info.contentId e)]
      exact lookupKey_setKey_self _ _ _
    · exact lookupKey_setKey_self _ _ _
    · intro hlen
      simp [saveStreamStep, hser, hkey, trimStreams_of_le _ hlen]
  · intro m info episodeId k hser
    have hkey : storageKeyOf info episodeId = info.contentId := by
      cases episodeId with
      | none => rfl
      | some e => by_cases he : e = "" <;> simp [storageKeyOf, truthyStr, he, hser]
    refine ⟨by simp [saveStreamStep, hser, hkey], ?_⟩
    intro hk
    exact lookupKey_setKey_other _ _ _ _ hk
  · intro m a b hm ha hb hb2
    exact trimStreams_evicts_oldest m hm a ha b hb hb2
  · intro m hm
    exact trimStreams_length_eq m hm
  · decide
  · decide
  · decide

set_option maxRecDepth 1000000 in
/-- Witness for C4 at concrete maps and records: the cap bound after one
save, both series keys readable after a dual write, the exact-100 trim of a
101-entry map, and an eviction comparison between a dropped and a kept
entry. -/
theorem c4_persisted_cap_and_keys_witness :
    (saveStreamStep [] (c4SaveInfo 0) none).length ≤ 100 ∧
    lookupKey (setKey (setKey [] ("tt4" ++ ":" ++ "ep2") c4SeriesInfo) "tt4" c4SeriesInfo)
      ("tt4" ++ ":" ++ "ep2") = some c4SeriesInfo ∧
    lookupKey (setKey (setKey [] ("tt4" ++ ":" ++ "ep2") c4SeriesInfo) "tt4" c4SeriesInfo)
      "tt4" = some c4SeriesInfo ∧
    (trimStreams c4Map101).length = 100 ∧
    ("k0", c4SaveInfo 0).2.timestamp ≤ ("k100", c4SaveInfo 100).2.timestamp :=
  ⟨c4_persisted_cap_and_keys.1 [] (c4SaveInfo 0) none,
   (c4_persisted_cap_and_keys.2.1 [] c4SeriesInfo "ep2" rfl (by decide)).2.1,
   (c4_persisted_cap_and_keys.2.1 [] c4SeriesInfo "ep2" rfl (by decide)).2.2.1,
   c4_persisted_cap_and_keys.2.2.2.2.1 c4Map101 (by decide),
   c4_persisted_cap_and_keys.2.2.2.1 c4Map101 ("k100", c4SaveInfo 100) ("k0", c4SaveInfo 0)
     (by decide) (by decide) (by decide) (by decide)⟩

/-- Folding a nonempty burst of batches over the observer callback only
replaces the pending batch with the last batch of the burst; the dispatch
log is untouched. -/
theorem foldl_observerOnBatch :
    ∀ (bs : List (List Nat)) (st : DispatchState), bs ≠ [] →
      bs.foldl observerOnBatch st =
        { pendingBatch := some (bs.getLastD []), dispatchLog := st.dispatchLog }
  | [], _, h => absurd rfl h
  | b :: rest, st, _ => by
    rw [List.foldl_cons]
    cases rest with
    | nil => rfl
    | cons c cs =>
      rw [foldl_observerOnBatch (c :: cs) (observerOnBatch st b) (by simp)]
      rfl

/-- In a list of handlers with distinct ids, filtering for the id of a
member finds exactly that member. -/
theorem length_filter_key_eq_one :
    ∀ {A : List ObserverHandler}, (A.map (fun x => x.id)).Nodup →
      ∀ {h : ObserverHandler}, h ∈ A →
      (A.filter (fun x => x.id == h.id)).length = 1 := by
  intro A
  induction A with
  | nil => intro _ h hmem; cases hmem
  | cons a as ih =>
    intro hnd h hmem
    rw [List.map_cons, List.nodup_cons] at hnd
    obtain ⟨hna, hnd2⟩ := hnd
    rcases List.mem_cons.mp hmem with rfl | hm2
    · rw [List.filter_cons, if_pos (by simp)]
      rw [List.length_cons]
      have hz : as.filter (fun x => x.id == h.id) = [] := by
        rw [List.filter_eq_nil_iff]
        intro x hx hpx
        rw [beq_iff_eq] at hpx
        exact hna (hpx ▸ List.mem_map_of_mem (fun y => y.id) hx)
      rw [hz]
      rfl
    · have hane : ¬ ((a.id == h.id) = true) := by
        rw [beq_iff_eq]
        intro he
        exact hna (he ▸ List.mem_map_of_mem (fun y => y.id) hm2)
      rw [List.filter_cons, if_neg hane]
      exact ih hnd2 hm2

/-- Filtering for an id held by no handler in the list finds nothing. -/
theorem length_filter_key_eq_zero {A : List ObserverHandler} {i : String}
    (hni : ∀ x ∈ A, x.id ≠ i) :
    (A.filter (fun x => x.id == i)).length = 0 := by
  have hz : A.filter (fun x => x.id == i) = [] := by
    rw [List.filter_eq_nil_iff]
    intro x hx
    simp [hni x hx]
  rw [hz]
  rfl

/-- C5: when N structural-change batches (N at least 1) are delivered within
one paint frame, each batch cancels the pending frame-aligned dispatch and
schedules a new one, so at the frame boundary every registered active
handler receives exactly one dispatch, inactive handlers receive none, and
no dispatch stays pending. -/
theorem c5_frame_coalescing (handlers : List ObserverHandler) (bs : List (List Nat))
    (hne : bs ≠ []) (hnd : (handlers.map (fun x => x.id)).Nodup) :
    (observerOnFrame handlers (bs.foldl observerOnBatch
        { pendingBatch := none, dispatchLog := [] })).pendingBatch = none ∧
    (∀ h, h ∈ handlers → h.active = true →
      ((observerOnFrame handlers (bs.foldl observerOnBatch
          { pendingBatch := none, dispatchLog := [] })).dispatchLog.filter
        (fun d => d.1 == h.id)).length = 1) ∧
    (∀ h, h ∈ handlers → h.active = false →
      ((observerOnFrame handlers (bs.foldl observerOnBatch
          { pendingBatch := none, dispatchLog := [] })).dispatchLog.filter
        (fun d => d.1 == h.id)).length = 0) := by
  rw [foldl_observerOnBatch bs _ hne]
  refine ⟨rfl, ?_, ?_⟩
  · intro h hmem hact
    have hndA : ((handlers.filter (fun x => x.active)).map (fun x => x.id)).Nodup :=
      List.Nodup.sublist (List.Sublist.map _ (List.filter_sublist handlers)) hnd
    have hmemA : h ∈ handlers.filter (fun x => x.active) :=
      List.mem_filter.mpr ⟨hmem, hact⟩
    simp only [observerOnFrame, List.nil_append, List.filter_map, List.length_map,
      Function.comp_def]
    exact length_filter_key_eq_one hndA hmemA
  · intro h hmem hact
    have hni : ∀ x ∈ handlers.filter (fun x => x.active), x.id ≠ h.id := by
      intro x hx he
      have hx2 := List.mem_filter.mp hx
      have hxh : x = h := List.inj_on_of_nodup_map hnd hx2.1 hmem he
      rw [hxh] at hx2
      rw [hact] at hx2
      exact Bool.false_ne_true hx2.2
    simp only [observerOnFrame, List.nil_append, List.filter_map, List.length_map,
      Function.comp_def]
    exact length_filter_key_eq_zero hni

/-- Witness for C5: a burst of three batches, one active and one inactive
handler. -/
theorem c5_frame_coalescing_witness :
    (observerOnFrame [{ id := "a", active := true }, { id := "b", active := false }]
        ([[0], [1], [2]].foldl observerOnBatch
          { pendingBatch := none, dispatchLog := [] })).pendingBatch = none ∧
    ((observerOnFrame [{ id := "a", active := true }, { id := "b", active := false }]
        ([[0], [1], [2]].foldl observerOnBatch
          { pendingBatch := none, dispatchLog := [] })).dispatchLog.filter
      (fun d => d.1 == "a")).length = 1 ∧
    ((observerOnFrame [{ id := "a", active := true }, { id := "b", active := false }]
        ([[0], [1], [2]].foldl observerOnBatch
          { pendingBatch := none, dispatchLog := [] })).dispatchLog.filter
      (fun d => d.1 == "b")).length = 0 :=
  ⟨(c5_frame_coalescing [{ id := "a", active := true }, { id := "b", active := false }]
      [[0], [1], [2]] (by decide) (by decide)).1,
   (c5_frame_coalescing [{ id := "a", active := true }, { id := "b", active := false }]
      [[0], [1], [2]] (by decide) (by decide)).2.1
      { id := "a", active := true } (by decide) rfl,
   (c5_frame_coalescing [{ id := "a", active := true }, { id := "b", active := false }]
      [[0], [1], [2]] (by decide) (by decide)).2.2
      { id := "b", active := false } (by decide) rfl⟩

/-- The event trace of the C9 scenario: two scroll inputs, the firing slot
of the first (cancelled) debounce timer, the second debounce timer, and the
frame-aligned check scheduled by that timer. -/
def c9Trace (t1 t2 tf : Nat) : List ScrollEvent :=
  [ScrollEvent.input t1, ScrollEvent.input t2,
   ScrollEvent.timerFire 0 (t1 + SCROLL_DEBOUNCE),
   ScrollEvent.timerFire 1 (t2 + SCROLL_DEBOUNCE),
   ScrollEvent.rafFire 2 tf]

/-- C9: two scroll inputs within the debounce window keep the monitor
Active through both (pauseAll is called exactly once, on the first input)
and there is exactly one Active-to-Idle transition after input stops: the
marker classes are removed and resumeAll is called exactly once, and only
after the frame-aligned check confirms that the debounce window elapsed
since the last input; a frame check inside the window changes nothing. -/
theorem c9_scroll_debounce (t1 t2 tf : Nat) (_h12 : t1 ≤ t2)
    (_hwin : t2 < t1 + SCROLL_DEBOUNCE) (hf : t2 + SCROLL_DEBOUNCE ≤ tf) :
    runScroll scrollInit (c9Trace t1 t2 tf) =
      { scrollTimeout := none, rafId := none, isScrolling := false
        lastScrollTime := t2, scrollingActiveClass := false
        performanceModeClass := false, pauseAllCalls := 1, resumeAllCalls := 1
        nextTimerId := 3 } ∧
    (∀ (st : ScrollState) (i t : Nat), st.rafId = some i →
      t < st.lastScrollTime + SCROLL_DEBOUNCE →
      (scrollStep st (ScrollEvent.rafFire i t)).resumeAllCalls = st.resumeAllCalls ∧
      (scrollStep st (ScrollEvent.rafFire i t)).isScrolling = st.isScrolling) := by
  constructor
  · simp [runScroll, c9Trace, scrollStep, handleScroll, scrollTimeoutBody,
      scrollRafBody, scrollInit, hf]
  · intro st i t hraf ht
    have hn : ¬ (st.lastScrollTime + SCROLL_DEBOUNCE ≤ t) := by omega
    constructor <;> simp [scrollStep, hraf, scrollRafBody, hn]

/-- A monitor state with an armed frame check and a recent input, used by
the C9 witness for the premature-check clause. -/
def c9PrematureState : ScrollState :=
  { scrollTimeout := none, rafId := some 7, isScrolling := true
    lastScrollTime := 100, scrollingActiveClass := true
    performanceModeClass := true, pauseAllCalls := 1, resumeAllCalls := 0
    nextTimerId := 8 }

/-- Witness for C9: inputs at 0 ms and 10 ms, a frame check at 60 ms, and a
premature frame check strictly inside the window. -/
theorem c9_scroll_debounce_witness :
    runScroll scrollInit (c9Trace 0 10 60) =
      { scrollTimeout := none, rafId := none, isScrolling := false
        lastScrollTime := 10, scrollingActiveClass := false
        performanceModeClass := false, pauseAllCalls := 1, resumeAllCalls := 1
        nextTimerId := 3 } ∧
    (scrollStep c9PrematureState (ScrollEvent.rafFire 7 120)).resumeAllCalls = 0 :=
  ⟨(c9_scroll_debounce 0 10 60 (by decide) (by decide) (by decide)).1,
   ((c9_scroll_debounce 0 10 60 (by decide) (by decide) (by decide)).2
      c9PrematureState 7 120 rfl (by decide)).1⟩

end StreamGo
